import Mathlib

/-!
Verification development for the REALLOCATE pilots-map validation workflow.

The definitions below are a shallow embedding of the Python sources
`validation-upload-workflow/plot_boundary_validation.py` and
`validation-upload-workflow/geojson_validator.py`.

Modelling conventions:
* Python strings are `List Char`; `str.lower()` is `Char.toLower` mapped
  over the list (the inputs of interest are ASCII plus a few Latin-1
  letters, on which the two agree).
* Python floats (areas, scores, timestamps) are modelled as `ℚ`.
* Library geometry predicates (shapely `intersects` / `within` /
  validity) are modelled as Boolean fields carried by the feature
  records; the aggregation logic around them is embedded faithfully.
* Human-readable `message` strings interpolate run-time numbers in the
  source; they are irrelevant to every verified property and are set to
  `[]` here.  Log statements, timing fields and timestamps are elided.
-/

namespace ReallocateMap

/-- Python `str.lower()` (ASCII/Latin-1 fragment). -/
def pyLower (s : List Char) : List Char := s.map Char.toLower

/-- Python `needle in hay` substring test. -/
def subStr (needle hay : List Char) : Bool := decide (needle <:+: hay)

/- String literals used by the sources. -/

def litCity : List Char := "city".toList

def litPlace : List Char := "place".toList

def litTown : List Char := "town".toList

def litVillage : List Char := "village".toList

def litAdministrative : List Char := "administrative".toList

def litPolygon : List Char := "Polygon".toList

def litMultiPolygon : List Char := "MultiPolygon".toList

def litPoint : List Char := "Point".toList

def litStad : List Char := "stad".toList

def litGoteborgSub : List Char := "göteborg".toList

def litStockholmSub : List Char := "stockholm".toList

def litMalmoSub : List Char := "malmö".toList

/-!
## Candidate scoring and eligibility
(`BoundaryPlotter.get_city_boundary`, plot_boundary_validation.py 149-229)

A `Cand` is one feature returned by the Nominatim polygon search,
carrying exactly the fields the loop body reads: the geometry type
string, the projected area in square metres (`EPSG:3857`), and the
`type` / `class` / `display_name` / `name` properties (missing
properties default to the empty string, as with `props.get(..., '')`).
-/

structure Cand where
  geom_type : List Char
  area_m2 : ℚ
  ftype : List Char
  cls : List Char
  display_name : List Char
  name : List Char
deriving DecidableEq

/-- `'stad' in feature_name and any(x in feature_name for x in
['göteborg', 'stockholm', 'malmö'])` — the hard-coded
large-municipality alias test (applied to the lower-cased name). -/
def aliasMatch (feature_name : List Char) : Bool :=
  subStr litStad feature_name &&
    (subStr litGoteborgSub feature_name || subStr litStockholmSub feature_name ||
      subStr litMalmoSub feature_name)

/-- Type-based score (plot_boundary_validation.py 185-203); the local
variables `feature_type` / `osm_class` / `display_name` /
`feature_name` of the source (lower-cased property reads) are inlined
as `pyLower c.field`. -/
def type_score (c : Cand) : ℚ :=
  if pyLower c.ftype = litCity then 100
  else if pyLower c.cls = litPlace ∧ subStr litCity (pyLower c.display_name) then 90
  else if pyLower c.ftype = litTown ∨ pyLower c.ftype = litVillage then 80
  else if pyLower c.ftype = litAdministrative then
    if aliasMatch (pyLower c.name) then 95
    else if c.area_m2 < 500000000 then 70
    else 30
  else 50

/-- Size-based score (plot_boundary_validation.py 205-212). -/
def size_score (c : Cand) : ℚ :=
  if aliasMatch (pyLower c.name) then 50
  else max 0 (100 - |c.area_m2 - 200000000| / 10000000)

/-- `combined_score = type_score + size_score`. -/
def combined_score (c : Cand) : ℚ := type_score c + size_score c

/-- `is_suitable_geometry` (line 176). -/
def is_suitable_geometry (c : Cand) : Bool :=
  c.geom_type = litPolygon ∨ c.geom_type = litMultiPolygon

/-- `is_reasonable_size` (lines 178-183): 10-4000 km² for alias-table
large-municipality matches, 10-2000 km² otherwise. -/
def is_reasonable_size (c : Cand) : Bool :=
  if aliasMatch (pyLower c.name) then
    10000000 < c.area_m2 ∧ c.area_m2 < 4000000000
  else
    10000000 < c.area_m2 ∧ c.area_m2 < 2000000000

/-- A candidate passes the eligibility filter of the selection loop
(line 218: `is_suitable_geometry and is_reasonable_size`). -/
def eligibleCand (c : Cand) : Bool :=
  is_suitable_geometry c && is_reasonable_size c

/-- One step of the selection loop (lines 218-222): a candidate
replaces the current best iff it is eligible and its combined score
strictly exceeds the best score seen so far. -/
def selectStep (st : Option Cand × ℚ) (c : Cand) : Option Cand × ℚ :=
  if eligibleCand c ∧ combined_score c > st.2 then (some c, combined_score c) else st

/-- The candidate-selection loop of `BoundaryPlotter.get_city_boundary`
(lines 126-233), over the flat list of successfully processed
candidates in iteration order (variants outer, per-variant results
inner; per-candidate and per-variant exceptions skip the item).
`best_boundary = None` and `best_area = 0` initially. -/
def select_boundary (cands : List Cand) : Option Cand × ℚ :=
  cands.foldl selectStep (none, 0)

/-!
### Claim-side scoring definitions

`specTypeScore` / `specSizeScore` transcribe the wording of the spec
(§4.2 step 3) and of claim C3, phrased over the area in km² as the
spec states it; the theorem for C3 compares them with the embedded
`type_score` / `size_score`.
-/

/-- typeScore as worded in the spec: 100 for declared type exactly
"city"; 90 for class "place" with "city" in the display name; 80 for
"town"/"village"; for "administrative" the alias-table override (95)
on a large-municipality match, else 70 below 500 km² else 30;
default 50. -/
def specTypeScore (c : Cand) : ℚ :=
  if pyLower c.ftype = litCity then 100
  else if pyLower c.cls = litPlace ∧ subStr litCity (pyLower c.display_name) then 90
  else if pyLower c.ftype = litTown ∨ pyLower c.ftype = litVillage then 80
  else if pyLower c.ftype = litAdministrative then
    if aliasMatch (pyLower c.name) then 95
    else if c.area_m2 / 1000000 < 500 then 70
    else 30
  else 50

/-- sizeScore as worded in the spec: a fixed bonus of 50 for
alias-table large-municipality matches, otherwise
`max(0, 100 - |area_km2 - 200| / 10)`. -/
def specSizeScore (c : Cand) : ℚ :=
  if aliasMatch (pyLower c.name) then 50
  else max 0 (100 - |c.area_m2 / 1000000 - 200| / 10)

/-- Loop invariant for `select_boundary`: after processing the prefix
`p`, the running state is either the initial one with no eligible
candidate seen, or holds the first eligible candidate attaining the
maximum combined score over `p`. -/
def SelInv (p : List Cand) (st : Option Cand × ℚ) : Prop :=
  (st.1 = none → st.2 = 0 ∧ ∀ d ∈ p, eligibleCand d = false) ∧
  ∀ c : Cand, st.1 = some c →
    st.2 = combined_score c ∧ eligibleCand c = true ∧
    (∀ d ∈ p, eligibleCand d = true → combined_score d ≤ st.2) ∧
    ∃ pre post, p = pre ++ c :: post ∧
      ∀ d ∈ pre, eligibleCand d = true → combined_score d < st.2

/-- A concrete eligible candidate: declared type "city", area 200 km². -/
def candCityA : Cand :=
  ⟨litPolygon, 200000000, litCity, ("a").toList, [], []⟩

/-- Same score as `candCityA` (the `class` field is not read on the
"city" branch), but a distinct record — used to exhibit tie-breaking. -/
def candCityB : Cand :=
  ⟨litPolygon, 200000000, litCity, ("b").toList, [], []⟩

/-!
## The Validation Engine's own boundary lookup and containment check
(`CityBoundaryValidator`, geojson_validator.py 51-156)
-/

/-- One feature of a Nominatim `geojson`-format response as consumed by
`CityBoundaryValidator`: only its geometry type is ever inspected by
the properties we verify.  `geom_exc` models whether the later shapely
processing of this boundary geometry (geojson_validator.py 112-118)
raises. -/
structure VFeature where
  geom_type : List Char
  geom_exc : Bool
deriving DecidableEq

/-- `self.cache`: a dict from lower-cased city name to
`(boundary_data, timestamp)`. -/
abbrev BCache := List (List Char × VFeature × ℚ)

/-- Outcome of the single Nominatim request issued by
`CityBoundaryValidator.get_city_boundary`: a decoded feature list, or
any exception (timeout, non-2xx, malformed payload). -/
inductive FetchOutcome
  | ok (features : List VFeature)
  | exc
deriving DecidableEq

/-- Return value of the modelled cached lookup: the boundary (or
`none`), the cache afterwards, and whether a network call was made. -/
structure LookupResult where
  result : Option VFeature
  cache : BCache
  called : Bool
deriving DecidableEq

/-- Python dict read `self.cache[cache_key]` (modelled as the first
matching entry of the association list). -/
def cacheFind (key : List Char) (c : BCache) : Option (VFeature × ℚ) :=
  (c.find? (fun e => e.1 = key)).map (fun e => e.2)

/-- Python dict write `self.cache[cache_key] = v`. -/
def cacheSet (key : List Char) (v : VFeature × ℚ) (c : BCache) : BCache :=
  (key, v) :: c.filter (fun e => ¬ e.1 = key)

/-- The try-block of `CityBoundaryValidator.get_city_boundary`
(geojson_validator.py 72-97): on a decoded response with a non-empty
feature list, take `data['features'][0]` — with no geometry-type or
size filtering — cache it and return it; on an empty feature list or
any exception return `None` WITHOUT caching. -/
def fetchBoundary (cache : BCache) (cache_key : List Char) (now : ℚ)
    (fetch : FetchOutcome) : LookupResult :=
  match fetch with
  | FetchOutcome.ok (f :: _) => ⟨some f, cacheSet cache_key (f, now) cache, true⟩
  | FetchOutcome.ok [] => ⟨none, cache, true⟩
  | FetchOutcome.exc => ⟨none, cache, true⟩

namespace CityBoundaryValidator

/-- `CityBoundaryValidator.get_city_boundary` (geojson_validator.py
62-97), with the wall clock (`time.time()`) passed as `now` and the
network passed as the prepared `fetch` outcome. -/
def get_city_boundary (cache_timeout : ℚ) (cache : BCache) (now : ℚ)
    (fetch : FetchOutcome) (city_name : List Char) : LookupResult :=
  let cache_key := pyLower city_name
  match cacheFind cache_key cache with
  | some dts =>
    if now - dts.2 < cache_timeout then ⟨some dts.1, cache, false⟩
    else fetchBoundary cache cache_key now fetch
  | none => fetchBoundary cache cache_key now fetch

end CityBoundaryValidator

/-- One feature of the validated GeoDataFrame, reduced to the Boolean
outcomes of the library geometry predicates the checks consume. -/
structure GeomRec where
  isNull : Bool
  isEmptyG : Bool
  isValidG : Bool
  intersectsB : Bool
  withinB : Bool
deriving DecidableEq

/-- A value of a `details` map entry (Python puts both ints and strings
there). -/
inductive DVal
  | num (n : Int)
  | txt (s : List Char)
deriving DecidableEq

/-- `ValidationResult` (geojson_validator.py 19-25).  `message` strings
interpolate run-time values in the source and are set to `[]` here. -/
structure ValidationResult where
  test_name : List Char
  passed : Bool
  message : List Char
  details : Option (List (List Char × DVal))
deriving DecidableEq

def litGeographicBoundaryCheck : List Char := "geographic_boundary_check".toList

def litReason : List Char := "reason".toList

def litApiUnavailable : List Char := "api_unavailable".toList

def litError : List Char := "error".toList

def litTotalFeatures : List Char := "total_features".toList

def litFeaturesWithin : List Char := "features_within".toList

def litFeaturesIntersecting : List Char := "features_intersecting".toList

def litFeaturesOutside : List Char := "features_outside".toList

/-- Detail-map read used to state properties about reported counts. -/
def detLookup (r : ValidationResult) (key : List Char) : Option DVal :=
  match r.details with
  | none => none
  | some kvs => (kvs.find? (fun kv => kv.1 = key)).map (fun kv => kv.2)

namespace CityBoundaryValidator

/-- `CityBoundaryValidator.validate_coordinates_in_city`
(geojson_validator.py 99-156) downstream of the boundary lookup, whose
outcome is passed as `boundary_data`.  The float-valued
`city_boundary_area` entry of the pass-branch details is elided. -/
def validate_coordinates_in_city (boundary_data : Option VFeature)
    (gdf : List GeomRec) : ValidationResult :=
  match boundary_data with
  | none =>
    ⟨litGeographicBoundaryCheck, false, [],
      some [(litReason, DVal.txt litApiUnavailable)]⟩
  | some bd =>
    if bd.geom_exc then
      ⟨litGeographicBoundaryCheck, false, [], some [(litError, DVal.txt [])]⟩
    else
      let total_features : Int := gdf.length
      let within_count : Int := (gdf.filter (fun g => g.withinB)).length
      let intersect_count : Int := (gdf.filter (fun g => g.intersectsB)).length
      if intersect_count = total_features then
        ⟨litGeographicBoundaryCheck, true, [],
          some [(litTotalFeatures, DVal.num total_features),
            (litFeaturesWithin, DVal.num within_count),
            (litFeaturesIntersecting, DVal.num intersect_count)]⟩
      else
        ⟨litGeographicBoundaryCheck, false, [],
          some [(litTotalFeatures, DVal.num total_features),
            (litFeaturesOutside, DVal.num (total_features - intersect_count)),
            (litFeaturesIntersecting, DVal.num intersect_count)]⟩

end CityBoundaryValidator

/-- A Point-geometry Nominatim result (no processing exception). -/
def pointFeature : VFeature := ⟨litPoint, false⟩

/-- A Polygon-geometry Nominatim result (no processing exception). -/
def polyFeature : VFeature := ⟨litPolygon, false⟩

def litLisbon : List Char := "lisbon".toList

/-- A feature intersecting (and within) the boundary, structurally
valid. -/
def featIn : GeomRec := ⟨false, false, true, true, true⟩

/-- A feature fully outside the boundary: neither intersecting nor
within. -/
def featOut : GeomRec := ⟨false, false, true, false, false⟩

/-!
## Name discovery and query variations
(`BoundaryPlotter.discover_local_names` and the variation construction
of `BoundaryPlotter.get_city_boundary`, plot_boundary_validation.py
34-124)
-/

/-- `BoundaryPlotter.discover_local_names` (plot_boundary_validation.py
34-89).  The network interaction is abstracted into `disc`: `none`
models any exception of the try-block (the except-branch returns
`[city_name]`); `some names` models the iteration order of the
`discovered_names` set.  The source seeds `name_list = [city_name]`,
appends each discovered name that is neither the query nor already
present, and returns `name_list[:10]`. -/
def discover_local_names (city_name : List Char)
    (disc : Option (List (List Char))) : List (List Char) :=
  match disc with
  | none => [city_name]
  | some discovered_names =>
    (discovered_names.foldl
      (fun name_list name =>
        if name ≠ city_name ∧ name ∉ name_list then name_list ++ [name]
        else name_list)
      [city_name]).take 10

def litGothenburgSub : List Char := "gothenburg".toList

def litUtrechtSub : List Char := "utrecht".toList

def litHeidelbergSub : List Char := "heidelberg".toList

def litBarcelonaSub : List Char := "barcelona".toList

def litBudapestSub : List Char := "budapest".toList

def litCommaSweden : List Char := (", Sweden").toList

def litCommaNetherlands : List Char := (", Netherlands").toList

def litCommaGermany : List Char := (", Germany").toList

def litCommaSpain : List Char := (", Spain").toList

def litCommaHungary : List Char := (", Hungary").toList

def litSpaceMunicipality : List Char := (" municipality").toList

def litSpaceKommun : List Char := (" kommun").toList

def litSpaceGemeente : List Char := (" gemeente").toList

def litSStad : List Char := ("s Stad").toList

def litGoteborgCap : List Char := ("Göteborg").toList

def litGoteborgsStadCap : List Char := ("Göteborgs Stad").toList

def litGoteborgSwedenCap : List Char := ("Göteborg, Sweden").toList

/-- `any(x in name.lower() for x in ['göteborg', 'gothenburg'])`. -/
def isGbg (ln : List Char) : Bool :=
  subStr litGoteborgSub ln || subStr litGothenburgSub ln

/-- The ten entries `city_variations.extend([...])` appends for one
discovered name (plot_boundary_validation.py 100-112). -/
def variation_block (name : List Char) : List (List Char) :=
  [name,
    if isGbg (pyLower name) then name ++ litCommaSweden else name,
    if subStr litUtrechtSub (pyLower name) then name ++ litCommaNetherlands else name,
    if subStr litHeidelbergSub (pyLower name) then name ++ litCommaGermany else name,
    if subStr litBarcelonaSub (pyLower name) then name ++ litCommaSpain else name,
    if subStr litBudapestSub (pyLower name) then name ++ litCommaHungary else name,
    name ++ litSpaceMunicipality,
    if isGbg (pyLower name) then name ++ litSpaceKommun else name,
    if subStr litUtrechtSub (pyLower name) then name ++ litSpaceGemeente else name,
    if isGbg (pyLower name) then name ++ litSStad else name]

/-- Python `list.remove(x)` guarded by `if x in l` (removes the first
occurrence; identity when absent). -/
def removeFirst (x : List Char) : List (List Char) → List (List Char)
  | [] => []
  | y :: ys => if y = x then ys else y :: removeFirst x ys

/-- One priority insertion step (plot_boundary_validation.py 118-121):
remove the first occurrence if present, then insert at index 0. -/
def pinsert (x : List Char) (l : List (List Char)) : List (List Char) :=
  x :: removeFirst x l

/-- `list(dict.fromkeys(l))` — deduplicate keeping first occurrences. -/
def dedupKF (l : List (List Char)) : List (List Char) :=
  l.foldl (fun acc x => if x ∈ acc then acc else acc ++ [x]) []

/-- The full query-variation list construction of
`BoundaryPlotter.get_city_boundary` (plot_boundary_validation.py
95-124): discovery, per-name variation blocks, Gothenburg priority
insertion, then order-preserving deduplication. -/
def city_variations (city_name : List Char)
    (disc : Option (List (List Char))) : List (List Char) :=
  let discovered_names := discover_local_names city_name disc
  let vars := discovered_names.foldl (fun acc name => acc ++ variation_block name) []
  let vars2 :=
    if pyLower city_name = litGothenburgSub ∨ pyLower city_name = litGoteborgSub then
      pinsert litGoteborgCap (pinsert litGoteborgsStadCap
        (pinsert litGoteborgSwedenCap vars))
    else vars
  dedupKF vars2

/-!
## Filename parsing
(`GeoJSONValidator.extract_city_and_pilot`, geojson_validator.py
195-220)

The primary pattern is `re.match(r'pilot(\d+)_(.+)\.geojson',
filename.lower())`.  `re.match` anchors at the start only; `\d+` is
greedy and must be followed by a literal underscore, and the greedy
`(.+)` (which cannot span a newline) backtracks to the LAST position
where the literal ".geojson" follows.  `\d` is modelled as the ASCII
digit test.
-/

def litPilot : List Char := "pilot".toList

def litDotGeojson : List Char := (".geojson").toList

def litUnknown : List Char := "unknown".toList

/-- The maximal leading digit run and the remainder (`\d+` matching). -/
def spanDigits : List Char → List Char × List Char
  | [] => ([], [])
  | c :: cs =>
    if c.isDigit then
      let p := spanDigits cs
      (c :: p.1, p.2)
    else ([], c :: cs)

/-- Greedy search for the split of `r` into `(.+)` followed by
".geojson": the largest `k ≥ 1` such that the first `k` characters
contain no newline and ".geojson" starts at position `k`.  Called with
the fuel `r.length`. -/
def findGeoSplit (r : List Char) : Nat → Option (List Char)
  | 0 => none
  | k + 1 =>
    if (!(r.take (k + 1)).contains '\n') && litDotGeojson.isPrefixOf (r.drop (k + 1)) then
      some (r.take (k + 1))
    else findGeoSplit r k

/-- `re.match(r'pilot(\d+)_(.+)\.geojson', lf)`, returning the two
captured groups. -/
def primary_match (lf : List Char) : Option (List Char × List Char) :=
  if litPilot.isPrefixOf lf then
    let p := spanDigits (lf.drop 5)
    match p.1, p.2 with
    | [], _ => none
    | _ :: _, '_' :: r2 =>
      (findGeoSplit r2 r2.length).map (fun g2 => (p.1, g2))
    | _ :: _, _ => none
  else none

/-- The default whitespace set of Python `str.strip()` (ASCII
fragment). -/
def wsChars : List Char := [' ', '\t', '\n', '\x0b', '\x0c', '\r']

def isPySpace (c : Char) : Bool := wsChars.contains c

/-- Python `str.strip()`. -/
def pyStrip (s : List Char) : List Char :=
  ((s.dropWhile isPySpace).reverse.dropWhile isPySpace).reverse

/-- Python `.replace('_', ' ')`. -/
def pyReplaceUS (s : List Char) : List Char :=
  s.map (fun c => if c = '_' then ' ' else c)

/-- Python `.replace(' ', '')`. -/
def removeSpaces (s : List Char) : List Char := s.filter (fun c => c ≠ ' ')

/-- Python `.replace('.geojson', '')` — drop every non-overlapping
occurrence, scanning left to right. -/
def removeAllGeo (s : List Char) : List Char :=
  match s with
  | [] => []
  | c :: cs =>
    if litDotGeojson.isPrefixOf (c :: cs) then removeAllGeo ((c :: cs).drop 8)
    else c :: removeAllGeo cs
termination_by s.length
decreasing_by
  · simp
    omega
  · simp

/-- Python `str.split('_')` (separator kept out, empty pieces kept). -/
def splitUS (s : List Char) : List (List Char) :=
  match s with
  | [] => [[]]
  | c :: cs =>
    let r := splitUS cs
    if c = '_' then [] :: r
    else
      match r with
      | [] => [[c]]
      | h :: t => (c :: h) :: t

/-- `re.search(r'\d+', s)`: the first maximal digit run, if any. -/
def firstDigitRun : List Char → Option (List Char)
  | [] => none
  | c :: cs =>
    if c.isDigit then some ((c :: cs).takeWhile Char.isDigit)
    else firstDigitRun cs

/-- `GeoJSONValidator.extract_city_and_pilot` (geojson_validator.py
195-220): primary regex match with city cleanup, then the
underscore-split fallback, else `("unknown", "unknown")`. -/
def extract_city_and_pilot (filename : List Char) : List Char × List Char :=
  match primary_match (pyLower filename) with
  | some dg => (removeSpaces (pyStrip (pyReplaceUS dg.2)), dg.1)
  | none =>
    if (splitUS (removeAllGeo (pyLower filename))).length ≥ 2 then
      match splitUS (removeAllGeo (pyLower filename)) with
      | [] => (litUnknown, litUnknown)
      | p0 :: rest =>
        (List.intercalate (List.cons '_' List.nil) rest,
          match firstDigitRun p0 with
          | some dr => dr
          | none => litUnknown)
    else (litUnknown, litUnknown)

def fPilotHague : List Char := ("pilot5_the_hague.geojson").toList

def fBadName : List Char := ("badname.geojson").toList

def litTheHague : List Char := ("thehague").toList

def litFive : List Char := ("5").toList

def dExample : List Char := ("5").toList

def nExample : List Char := ("the_hague").toList

/-!
## The Validation Engine
(`GeoJSONValidator`, geojson_validator.py 159-555)
-/

/-- The validation configuration (`GeoJSONValidator._default_config`,
geojson_validator.py 167-178). -/
structure Config where
  min_lon : ℚ
  max_lon : ℚ
  min_lat : ℚ
  max_lat : ℚ
  min_feature_count : Nat
  max_feature_count : Nat
  max_file_size_mb : Nat
  required_crs : List Char

def default_config : Config :=
  ⟨-31, 45, 34, 72, 1, 10000, 100, ("EPSG:4326").toList⟩

def litFileExistence : List Char := "file_existence".toList

def litFileSize : List Char := "file_size".toList

def litFilenameConvention : List Char := "filename_convention".toList

def litJsonValidity : List Char := "json_validity".toList

def litJsonStructure : List Char := "json_structure".toList

def litGeojsonTypeField : List Char := "geojson_type_field".toList

def litGeojsonFeaturesField : List Char := "geojson_features_field".toList

def litGeojsonType : List Char := "geojson_type".toList

def litFeaturesArray : List Char := "features_array".toList

def litFeatureStructure : List Char := "feature_structure".toList

def litFeaturesStructure : List Char := "features_structure".toList

def litFeatureCount : List Char := "feature_count".toList

def litCoordinateSystem : List Char := "coordinate_system".toList

def litNullGeometries : List Char := "null_geometries".toList

def litEmptyGeometries : List Char := "empty_geometries".toList

def litGeometryValidity : List Char := "geometry_validity".toList

def litEuropeanBounds : List Char := "european_bounds".toList

def litGeopandasLoading : List Char := "geopandas_loading".toList

def litFileAccess : List Char := "file_access".toList

def litCriticalError : List Char := "critical_error".toList

def litPASS : List Char := "PASS".toList

def litFAIL : List Char := "FAIL".toList

def litFeatureCollection : List Char := "FeatureCollection".toList

/-- `re.match(r'pilot\d+_.+\.geojson$', lf)` (geojson_validator.py
257): anchored at both ends, so the only admissible split of the rest
is `middle ++ ".geojson"` with a non-empty newline-free middle. -/
def matches_convention (lf : List Char) : Bool :=
  litPilot.isPrefixOf lf &&
    (match spanDigits (lf.drop 5) with
     | ([], _) => false
     | (_ :: _, '_' :: r2) =>
       decide (9 ≤ r2.length) &&
         litDotGeojson.isPrefixOf (r2.drop (r2.length - 8)) &&
         !(r2.take (r2.length - 8)).contains '\n'
     | (_ :: _, _) => false)

/-- One decoded feature of the `features` array, reduced to the fields
`validate_json_structure` reads. -/
structure JFeatureRec where
  isObj : Bool
  hasType : Bool
  hasGeometry : Bool
deriving DecidableEq

/-- A decoded JSON value read from the top-level dict (only the shapes
the validator distinguishes). -/
inductive JVal
  | str (s : List Char)
  | arr (fs : List JFeatureRec)
  | other
deriving DecidableEq

/-- Outcome of `json.load`: a decode error, any other read error, or
the parsed top-level dict reduced to its `type` and `features`
entries. -/
inductive JsonOutcome
  | decodeError
  | readError
  | ok (tf : Option JVal) (ff : Option JVal)
deriving DecidableEq

/-- The GeoDataFrame produced by `gpd.read_file`, reduced to the data
`validate_geodataframe` consumes: per-feature predicate outcomes, the
declared CRS, and the total bounds. -/
structure GdfModel where
  geoms : List GeomRec
  crs : Option (List Char)
  minx : ℚ
  miny : ℚ
  maxx : ℚ
  maxy : ℚ

namespace GeoJSONValidator

/-- `GeoJSONValidator.validate_file_system` (geojson_validator.py
222-267): existence, size, and naming-convention checks (the
`file_path.stat()` size is passed in; an early return on a missing
file yields the single existence failure). -/
def validate_file_system (cfg : Config) (exists_b : Bool) (file_size : Nat)
    (filename : List Char) : List ValidationResult :=
  if exists_b = false then
    [⟨litFileExistence, false, [], none⟩]
  else
    [⟨litFileExistence, true, [], none⟩] ++
    [if file_size > cfg.max_file_size_mb * 1024 * 1024 then
        ⟨litFileSize, false, [], none⟩
      else if file_size = 0 then ⟨litFileSize, false, [], none⟩
      else ⟨litFileSize, true, [], none⟩] ++
    [if matches_convention (pyLower filename) then
        ⟨litFilenameConvention, true, [], none⟩
      else ⟨litFilenameConvention, false, [], none⟩]

/-- The per-feature loop of `validate_json_structure`
(geojson_validator.py 314-335); the index interpolated into the
per-feature test names is elided. -/
def featureChecks (fs : List JFeatureRec) : List ValidationResult :=
  fs.enum.flatMap (fun p =>
    if p.2.isObj = false then [⟨litFeatureStructure, false, [], none⟩]
    else
      (if p.2.hasType then [] else [⟨litFeatureStructure, false, [], none⟩]) ++
      (if p.2.hasGeometry then [] else [⟨litFeatureStructure, false, [], none⟩]) ++
      (if p.2.hasType && p.2.hasGeometry && p.1 = 0 then
        [⟨litFeaturesStructure, true, [], none⟩]
      else []))

/-- `GeoJSONValidator.validate_json_structure` (geojson_validator.py
269-346). -/
def validate_json_structure (j : JsonOutcome) : List ValidationResult :=
  match j with
  | JsonOutcome.decodeError => [⟨litJsonValidity, false, [], none⟩]
  | JsonOutcome.readError => [⟨litJsonStructure, false, [], none⟩]
  | JsonOutcome.ok tf ff =>
    [⟨litJsonValidity, true, [], none⟩] ++
    [match tf with
     | some _ => ⟨litGeojsonTypeField, true, [], none⟩
     | none => ⟨litGeojsonTypeField, false, [], none⟩] ++
    [match ff with
     | some _ => ⟨litGeojsonFeaturesField, true, [], none⟩
     | none => ⟨litGeojsonFeaturesField, false, [], none⟩] ++
    [if tf = some (JVal.str litFeatureCollection) then
        ⟨litGeojsonType, true, [], none⟩
      else ⟨litGeojsonType, false, [], none⟩] ++
    (match ff.getD (JVal.arr []) with
     | JVal.arr fs => [⟨litFeaturesArray, true, [], none⟩] ++ featureChecks fs
     | _ => [⟨litFeaturesArray, false, [], none⟩])

/-- `GeoJSONValidator.validate_geodataframe` (geojson_validator.py
348-449): feature count, CRS, null/empty/invalid geometries, European
bounds — always exactly these six results. -/
def validate_geodataframe (cfg : Config) (g : GdfModel) : List ValidationResult :=
  [if g.geoms.length < cfg.min_feature_count then ⟨litFeatureCount, false, [], none⟩
   else if g.geoms.length > cfg.max_feature_count then ⟨litFeatureCount, false, [], none⟩
   else ⟨litFeatureCount, true, [], none⟩] ++
  [match g.crs with
   | none => ⟨litCoordinateSystem, false, [], none⟩
   | some crs =>
     if crs ≠ cfg.required_crs then ⟨litCoordinateSystem, false, [], none⟩
     else ⟨litCoordinateSystem, true, [], none⟩] ++
  [if 0 < (g.geoms.filter (fun x => x.isNull)).length then
      ⟨litNullGeometries, false, [], none⟩
    else ⟨litNullGeometries, true, [], none⟩] ++
  [if 0 < (g.geoms.filter (fun x => x.isEmptyG)).length then
      ⟨litEmptyGeometries, false, [], none⟩
    else ⟨litEmptyGeometries, true, [], none⟩] ++
  [if 0 < (g.geoms.filter (fun x => !x.isValidG)).length then
      ⟨litGeometryValidity, false, [], none⟩
    else ⟨litGeometryValidity, true, [], none⟩] ++
  [if g.minx ≥ cfg.min_lon ∧ g.maxx ≤ cfg.max_lon ∧
      g.miny ≥ cfg.min_lat ∧ g.maxy ≤ cfg.max_lat then
      ⟨litEuropeanBounds, true, [], none⟩
    else ⟨litEuropeanBounds, false, [], none⟩]

end GeoJSONValidator

/-- `FileValidationReport` (geojson_validator.py 28-48); the float
`processing_time` and the `timestamp` string are elided. -/
structure FileValidationReport where
  filename : List Char
  city_name : List Char
  pilot_number : List Char
  file_size : Nat
  total_tests : Nat
  passed_tests : Nat
  failed_tests : Nat
  validation_results : List ValidationResult
deriving DecidableEq

/-- The `success_rate` property (geojson_validator.py 42-44). -/
def success_rate (r : FileValidationReport) : ℚ :=
  if r.total_tests > 0 then (r.passed_tests : ℚ) / (r.total_tests : ℚ) else 0

/-- The `overall_status` property (geojson_validator.py 46-48). -/
def overall_status (r : FileValidationReport) : List Char :=
  if r.failed_tests = 0 then litPASS else litFAIL

/-- One input file as `validate_file` observes it: name, the outcome
of `file_path.stat()` (`none` models the raise caught by the outer
except), existence, the JSON parse outcome, the `gpd.read_file`
outcome, and the boundary lookup outcome used by the containment
check. -/
structure FileInput where
  name : List Char
  statSize : Option Nat
  exists_b : Bool
  json : JsonOutcome
  gdf : Option GdfModel
  boundary : Option VFeature

namespace GeoJSONValidator

/-- The `all_results` list accumulated by
`GeoJSONValidator.validate_file` (geojson_validator.py 459-496): the
outer except yields the single `file_access` failure; otherwise file
system checks, JSON checks, then either the `geopandas_loading`
failure or the GeoDataFrame checks plus exactly one boundary result
(the containment check when the city is known, a failure otherwise). -/
def validate_file_results (cfg : Config) (fi : FileInput) : List ValidationResult :=
  match fi.statSize with
  | none => [⟨litFileAccess, false, [], none⟩]
  | some file_size =>
    validate_file_system cfg fi.exists_b file_size fi.name ++
    validate_json_structure fi.json ++
    (match fi.gdf with
     | none => [⟨litGeopandasLoading, false, [], none⟩]
     | some g =>
       validate_geodataframe cfg g ++
       [if (extract_city_and_pilot fi.name).1 ≠ litUnknown then
          CityBoundaryValidator.validate_coordinates_in_city fi.boundary g.geoms
        else ⟨litGeographicBoundaryCheck, false, [], none⟩])

/-- `GeoJSONValidator.validate_file` (geojson_validator.py 451-519):
summary statistics computed from `all_results` as in the source
(`passed = count of passed`, `failed = len - passed`). -/
def validate_file (cfg : Config) (fi : FileInput) : FileValidationReport :=
  ⟨fi.name, (extract_city_and_pilot fi.name).1, (extract_city_and_pilot fi.name).2,
    fi.statSize.getD 0,
    (validate_file_results cfg fi).length,
    ((validate_file_results cfg fi).filter (fun r => r.passed)).length,
    (validate_file_results cfg fi).length -
      ((validate_file_results cfg fi).filter (fun r => r.passed)).length,
    validate_file_results cfg fi⟩

end GeoJSONValidator

/-- One directory entry of a batch run: either `validate_file`
returns, or it raises an unexpected internal error (the except-branch
of `validate_all_files`). -/
inductive BatchItem
  | ok (fi : FileInput)
  | raisesErr (name : List Char)

/-- The error report built in the except-branch of
`validate_all_files` (geojson_validator.py 538-552). -/
def error_report (name : List Char) : FileValidationReport :=
  ⟨name, litUnknown, litUnknown, 0, 1, 0, 1, [⟨litCriticalError, false, [], none⟩]⟩

namespace GeoJSONValidator

/-- `GeoJSONValidator.validate_all_files` (geojson_validator.py
521-555) over the sorted file list. -/
def validate_all_files (cfg : Config) (items : List BatchItem) :
    List FileValidationReport :=
  items.map (fun it =>
    match it with
    | BatchItem.ok fi => validate_file cfg fi
    | BatchItem.raisesErr n => error_report n)

end GeoJSONValidator

/-- A readable file with unparseable content: `stat` succeeds, JSON
decoding fails, and GeoPandas fails to load it. -/
def badJsonInput : FileInput :=
  ⟨fBadName, some 10, true, JsonOutcome.decodeError, none, none⟩

/-- A file that cannot even be accessed: `stat` raises. -/
def noAccessInput : FileInput :=
  ⟨fBadName, none, true, JsonOutcome.decodeError, none, none⟩

/-- A well-formed input: readable, valid FeatureCollection JSON,
loadable with one feature, boundary resolved. -/
def goodGdf : GdfModel :=
  ⟨[featIn], some (("EPSG:4326").toList), 4, 41, 5, 42⟩

def goodInput : FileInput :=
  ⟨fPilotHague, some 100, true,
    JsonOutcome.ok (some (JVal.str litFeatureCollection))
      (some (JVal.arr [⟨true, true, true⟩])),
    some goodGdf, some polyFeature⟩

def exBatch : List BatchItem :=
  [BatchItem.ok goodInput, BatchItem.raisesErr fBadName]

/-! ## Theorems -/

theorem type_score_ge_30 (c : Cand) : 30 ≤ type_score c := by
  unfold type_score
  split_ifs <;> norm_num

theorem size_score_nonneg (c : Cand) : 0 ≤ size_score c := by
  unfold size_score
  split_ifs
  · norm_num
  · exact le_max_left 0 _

theorem combined_score_pos (c : Cand) : 0 < combined_score c := by
  have h1 := type_score_ge_30 c
  have h2 := size_score_nonneg c
  unfold combined_score
  linarith

theorem selectStep_inv (p : List Cand) (st : Option Cand × ℚ) (c : Cand)
    (h : SelInv p st) : SelInv (p ++ [c]) (selectStep st c) := by
  obtain ⟨s, b⟩ := st
  unfold selectStep
  by_cases hc : eligibleCand c = true ∧ combined_score c > b
  · rw [if_pos hc]
    constructor
    · intro hnone; exact absurd hnone (by simp)
    · intro c1 hc1
      rw [Option.some.injEq] at hc1
      subst hc1
      refine ⟨rfl, hc.1, ?_, p, [], by simp, ?_⟩
      · intro d hd he
        rcases List.mem_append.mp hd with hd | hd
        · cases s with
          | none =>
            exact absurd he (by simp [(h.1 rfl).2 d hd])
          | some c0 =>
            have hb := (h.2 c0 rfl).1
            have hle := (h.2 c0 rfl).2.2.1 d hd he
            exact le_of_lt (lt_of_le_of_lt hle hc.2)
        · simp only [List.mem_singleton] at hd
          subst hd; exact le_refl _
      · intro d hd he
        cases s with
        | none => exact absurd he (by simp [(h.1 rfl).2 d hd])
        | some c0 =>
          exact lt_of_le_of_lt ((h.2 c0 rfl).2.2.1 d hd he) hc.2
  · rw [if_neg hc]
    constructor
    · intro hnone
      obtain ⟨hb0, hne⟩ := h.1 hnone
      refine ⟨hb0, ?_⟩
      intro d hd
      rcases List.mem_append.mp hd with hd | hd
      · exact hne d hd
      · simp only [List.mem_singleton] at hd
        subst hd
        by_contra hdne
        have he : eligibleCand d = true := by
          cases hdb : eligibleCand d with
          | false => exact absurd hdb hdne
          | true => rfl
        have hpos := combined_score_pos d
        simp only at hb0
        exact hc ⟨he, by rw [hb0]; exact hpos⟩
    · intro c1 hc1
      obtain ⟨hb, he0, hmax, pre, post, hsplit, hpre⟩ := h.2 c1 hc1
      refine ⟨hb, he0, ?_, pre, post ++ [c], by rw [hsplit]; simp, hpre⟩
      intro d hd he
      rcases List.mem_append.mp hd with hd | hd
      · exact hmax d hd he
      · simp only [List.mem_singleton] at hd
        subst hd
        by_contra hgt
        exact hc ⟨he, lt_of_not_le hgt⟩

theorem foldl_selectStep_inv (rest : List Cand) :
    ∀ (p : List Cand) (st : Option Cand × ℚ), SelInv p st →
      SelInv (p ++ rest) (rest.foldl selectStep st) := by
  induction rest with
  | nil => intro p st h; simpa using h
  | cons c rest ih =>
    intro p st h
    have h1 := selectStep_inv p st c h
    have h2 := ih (p ++ [c]) (selectStep st c) h1
    simpa using h2

theorem select_boundary_inv (cands : List Cand) :
    SelInv cands (select_boundary cands) := by
  have h0 : SelInv [] ((none : Option Cand), (0 : ℚ)) := by
    constructor
    · intro _; exact ⟨rfl, by simp⟩
    · intro c hc; exact absurd hc (by simp)
  have := foldl_selectStep_inv cands [] (none, 0) h0
  simpa [select_boundary] using this

/-- C3: for every boundary candidate, the combined score equals
typeScore + sizeScore exactly as the claim words them (over the area
in km²): typeScore is 100 for declared type "city", 90 for class
"place" with "city" in the display name, 80 for "town"/"village", the
alias-table override for "administrative" large-municipality matches
else 70 below 500 km² else 30, default 50; sizeScore is the fixed
bonus 50 on alias matches and max(0, 100 - |area_km2 - 200| / 10)
otherwise. -/
theorem C3_combined_score_formula (c : Cand) :
    combined_score c = specTypeScore c + specSizeScore c := by
  have key : ∀ a : ℚ, |a / 1000000 - 200| / 10 = |a - 200000000| / 10000000 := by
    intro a
    rw [show a / 1000000 - 200 = (a - 200000000) / 1000000 by ring, abs_div,
      abs_of_pos (by norm_num : (0:ℚ) < 1000000)]
    ring
  have harea : (c.area_m2 / 1000000 < 500) ↔ (c.area_m2 < 500000000) := by
    rw [div_lt_iff₀ (by norm_num : (0:ℚ) < 1000000)]
    norm_num
  unfold combined_score type_score size_score specTypeScore specSizeScore
  rw [key c.area_m2]
  simp only [harea]

/-- C4 (theorem): across the candidates in iteration order, the
selection loop picks the eligible candidate with the maximal combined
score, the first one encountered winning ties; when no candidate is
eligible nothing is selected. -/
theorem C4_first_max_selected (cands : List Cand) :
    ((select_boundary cands).1 = none → ∀ d ∈ cands, eligibleCand d = false) ∧
    (∀ c : Cand, (select_boundary cands).1 = some c →
      eligibleCand c = true ∧
      (∀ d ∈ cands, eligibleCand d = true → combined_score d ≤ combined_score c) ∧
      ∃ pre post, cands = pre ++ c :: post ∧
        ∀ d ∈ pre, eligibleCand d = true → combined_score d < combined_score c) := by
  have hinv := select_boundary_inv cands
  constructor
  · intro hs
    exact (hinv.1 hs).2
  · intro c hs
    obtain ⟨hb, he, hmax, pre, post, hsplit, hpre⟩ := hinv.2 c hs
    rw [hb] at hmax hpre
    exact ⟨he, hmax, pre, post, hsplit, hpre⟩

/-- C1 (amended): the plotting resolver
(`BoundaryPlotter.get_city_boundary`) treats a candidate as eligible
only if its geometry type is Polygon or MultiPolygon and its projected
area lies in the 10-2000 km² window (10-4000 km² for alias-table
large-municipality matches); consequently every boundary it selects is
Polygon or MultiPolygon.  (The Validation Engine's own lookup does not
filter — see `C1_point_surfaces_counterexample`.) -/
theorem C1_resolver_polygon_only (cands : List Cand) (c : Cand)
    (h : (select_boundary cands).1 = some c) :
    (c.geom_type = litPolygon ∨ c.geom_type = litMultiPolygon) ∧
    (if aliasMatch (pyLower c.name) = true then
      10000000 < c.area_m2 ∧ c.area_m2 < 4000000000
    else
      10000000 < c.area_m2 ∧ c.area_m2 < 2000000000) := by
  have he := ((select_boundary_inv cands).2 c h).2.1
  unfold eligibleCand at he
  rw [Bool.and_eq_true] at he
  constructor
  · have h1 := he.1
    unfold is_suitable_geometry at h1
    exact of_decide_eq_true h1
  · have h2 := he.2
    unfold is_reasonable_size at h2
    split_ifs at h2 with ha
    · rw [if_pos ha]
      exact of_decide_eq_true h2
    · rw [if_neg ha]
      exact of_decide_eq_true h2

/-- Witness for C1 at a concrete candidate list. -/
theorem C1_resolver_polygon_only_witness :
    (candCityA.geom_type = litPolygon ∨ candCityA.geom_type = litMultiPolygon) ∧
    (if aliasMatch (pyLower candCityA.name) = true then
      10000000 < candCityA.area_m2 ∧ candCityA.area_m2 < 4000000000
    else
      10000000 < candCityA.area_m2 ∧ candCityA.area_m2 < 2000000000) :=
  C1_resolver_polygon_only [candCityA] candCityA (by
    norm_num +decide [select_boundary, selectStep, eligibleCand, combined_score, type_score,
      size_score, is_suitable_geometry, is_reasonable_size, aliasMatch, subStr,
      candCityA, pyLower, litPolygon, litCity, litStad, litGoteborgSub,
      litStockholmSub, litMalmoSub])

/-- C1 counterexample: the Validation Engine's own cached lookup
(`CityBoundaryValidator.get_city_boundary`) takes the first search
result with no geometry-type filter, so a Point result surfaces as the
resolved boundary and is consumed by the containment check. -/
theorem C1_point_surfaces_counterexample :
    (CityBoundaryValidator.get_city_boundary 3600 [] 0
        (FetchOutcome.ok [pointFeature]) litLisbon).result = some pointFeature ∧
    pointFeature.geom_type = litPoint ∧
    litPoint ≠ litPolygon ∧ litPoint ≠ litMultiPolygon ∧
    (CityBoundaryValidator.validate_coordinates_in_city (some pointFeature)
        [featIn]).passed = true := by
  decide

/-- C2 counterexample: a failed first lookup (`NotFound`) is NOT
cached, so a second call for the same city within the TTL issues a
second external search. -/
theorem C2_failure_not_cached_counterexample :
    (CityBoundaryValidator.get_city_boundary 3600 [] 0 FetchOutcome.exc litLisbon).result
        = none ∧
    (CityBoundaryValidator.get_city_boundary 3600 [] 0 FetchOutcome.exc litLisbon).called
        = true ∧
    (CityBoundaryValidator.get_city_boundary 3600
        (CityBoundaryValidator.get_city_boundary 3600 [] 0 FetchOutcome.exc litLisbon).cache
        1 FetchOutcome.exc litLisbon).called = true := by
  decide

/-- C2 (amended): only success outcomes are cached.  If the first call
resolves a boundary, a second call for the same locality within the
TTL returns it from the cache with no network call. -/
theorem C2_success_cached (city : List Char) (f : VFeature) (rest : List VFeature)
    (t0 t1 : ℚ) (fetch2 : FetchOutcome) (h1 : t1 - t0 < 3600) :
    (CityBoundaryValidator.get_city_boundary 3600 [] t0
        (FetchOutcome.ok (f :: rest)) city).called = true ∧
    (CityBoundaryValidator.get_city_boundary 3600 [] t0
        (FetchOutcome.ok (f :: rest)) city).result = some f ∧
    (CityBoundaryValidator.get_city_boundary 3600
        (CityBoundaryValidator.get_city_boundary 3600 [] t0
          (FetchOutcome.ok (f :: rest)) city).cache
        t1 fetch2 city).called = false ∧
    (CityBoundaryValidator.get_city_boundary 3600
        (CityBoundaryValidator.get_city_boundary 3600 [] t0
          (FetchOutcome.ok (f :: rest)) city).cache
        t1 fetch2 city).result = some f := by
  unfold CityBoundaryValidator.get_city_boundary fetchBoundary cacheFind cacheSet
  simp [h1]

/-- Witness for C2 at a concrete city, boundary and pair of times. -/
theorem C2_success_cached_witness :
    (CityBoundaryValidator.get_city_boundary 3600 [] 0
        (FetchOutcome.ok [polyFeature]) litLisbon).called = true ∧
    (CityBoundaryValidator.get_city_boundary 3600 [] 0
        (FetchOutcome.ok [polyFeature]) litLisbon).result = some polyFeature ∧
    (CityBoundaryValidator.get_city_boundary 3600
        (CityBoundaryValidator.get_city_boundary 3600 [] 0
          (FetchOutcome.ok [polyFeature]) litLisbon).cache
        10 FetchOutcome.exc litLisbon).called = false ∧
    (CityBoundaryValidator.get_city_boundary 3600
        (CityBoundaryValidator.get_city_boundary 3600 [] 0
          (FetchOutcome.ok [polyFeature]) litLisbon).cache
        10 FetchOutcome.exc litLisbon).result = some polyFeature :=
  C2_success_cached litLisbon polyFeature [] 0 10 FetchOutcome.exc (by norm_num)

/-- C6: given a resolved boundary (and no internal geometry error),
the containment check passes iff every feature intersects the
boundary; on failure the details report the count of non-intersecting
features. -/
theorem C6_lenient_containment (feats : List GeomRec) (bd : VFeature)
    (hexc : bd.geom_exc = false) :
    ((CityBoundaryValidator.validate_coordinates_in_city (some bd) feats).passed = true ↔
      ∀ g ∈ feats, g.intersectsB = true) ∧
    ((CityBoundaryValidator.validate_coordinates_in_city (some bd) feats).passed = false →
      detLookup (CityBoundaryValidator.validate_coordinates_in_city (some bd) feats)
          litFeaturesOutside =
        some (DVal.num ((feats.filter (fun g => !g.intersectsB)).length))) := by
  have hsum : feats.length = (feats.filter (fun g => g.intersectsB)).length +
      (feats.filter (fun g => !g.intersectsB)).length := by
    simpa using List.length_eq_length_filter_add (l := feats) (fun g => g.intersectsB)
  by_cases hic : ((feats.filter (fun g => g.intersectsB)).length : Int) =
      (feats.length : Int)
  · constructor
    · constructor
      · intro _
        have hn : (feats.filter (fun g => g.intersectsB)).length = feats.length := by
          exact_mod_cast hic
        exact fun g hg => List.filter_length_eq_length.mp hn g hg
      · intro _
        simp [CityBoundaryValidator.validate_coordinates_in_city, hexc, hic]
    · intro hf
      simp [CityBoundaryValidator.validate_coordinates_in_city, hexc, hic] at hf
  · constructor
    · constructor
      · intro hp
        simp [CityBoundaryValidator.validate_coordinates_in_city, hexc, hic] at hp
      · intro hall
        exact absurd (by exact_mod_cast List.filter_length_eq_length.mpr hall) hic
    · intro _
      simp +decide [CityBoundaryValidator.validate_coordinates_in_city, detLookup,
        hexc, hic, List.find?, litTotalFeatures, litFeaturesOutside]
      omega

/-- Witness for C6 at a concrete boundary and feature list with one
non-intersecting feature. -/
theorem C6_lenient_containment_witness :
    ((CityBoundaryValidator.validate_coordinates_in_city (some polyFeature)
        [featIn, featOut]).passed = true ↔
      ∀ g ∈ [featIn, featOut], g.intersectsB = true) ∧
    ((CityBoundaryValidator.validate_coordinates_in_city (some polyFeature)
        [featIn, featOut]).passed = false →
      detLookup (CityBoundaryValidator.validate_coordinates_in_city (some polyFeature)
          [featIn, featOut]) litFeaturesOutside =
        some (DVal.num (([featIn, featOut].filter (fun g => !g.intersectsB)).length))) :=
  C6_lenient_containment [featIn, featOut] polyFeature (by decide)

theorem discFold_ext (city : List Char) (names : List (List Char)) :
    ∀ acc : List (List Char), acc.Nodup →
      ∃ ext, names.foldl (fun name_list name =>
          if name ≠ city ∧ name ∉ name_list then name_list ++ [name] else name_list) acc
        = acc ++ ext ∧ (acc ++ ext).Nodup := by
  induction names with
  | nil =>
    intro acc h
    exact ⟨[], by simp, by simpa using h⟩
  | cons n ns ih =>
    intro acc h
    by_cases hc : n ≠ city ∧ n ∉ acc
    · have h2 : (acc ++ [n]).Nodup := by
        simp [List.nodup_append, h, hc.2]
      obtain ⟨ext, he, hn⟩ := ih (acc ++ [n]) h2
      refine ⟨n :: ext, ?_, ?_⟩
      · simp only [List.foldl_cons, if_pos hc]
        rw [he]
        simp
      · rw [show acc ++ n :: ext = (acc ++ [n]) ++ ext by simp]
        exact hn
    · obtain ⟨ext, he, hn⟩ := ih acc h
      refine ⟨ext, ?_, hn⟩
      simp only [List.foldl_cons, if_neg hc]
      exact he

theorem dedupKF_go_nodup (l : List (List Char)) :
    ∀ acc : List (List Char), acc.Nodup →
      (l.foldl (fun acc x => if x ∈ acc then acc else acc ++ [x]) acc).Nodup := by
  induction l with
  | nil => intro acc h; simpa using h
  | cons x xs ih =>
    intro acc h
    simp only [List.foldl_cons]
    by_cases hx : x ∈ acc
    · rw [if_pos hx]; exact ih acc h
    · rw [if_neg hx]
      exact ih (acc ++ [x]) (by simp [List.nodup_append, h, hx])

theorem dedupKF_go_ne (l : List (List Char)) :
    ∀ acc : List (List Char), acc ≠ [] →
      (l.foldl (fun acc x => if x ∈ acc then acc else acc ++ [x]) acc) ≠ [] := by
  induction l with
  | nil => intro acc h; simpa using h
  | cons x xs ih =>
    intro acc h
    simp only [List.foldl_cons]
    by_cases hx : x ∈ acc
    · rw [if_pos hx]; exact ih acc h
    · rw [if_neg hx]
      exact ih (acc ++ [x]) (by simp)

theorem dedupKF_nodup (l : List (List Char)) : (dedupKF l).Nodup :=
  dedupKF_go_nodup l [] (by simp)

theorem dedupKF_ne (l : List (List Char)) (h : l ≠ []) : dedupKF l ≠ [] := by
  match l with
  | x :: xs =>
    unfold dedupKF
    simp only [List.foldl_cons, List.not_mem_nil, if_neg, List.nil_append]
    exact dedupKF_go_ne xs [x] (by simp)

theorem blocksFold_eq (names : List (List Char)) :
    ∀ acc : List (List Char),
      names.foldl (fun acc name => acc ++ variation_block name) acc
        = acc ++ names.flatMap variation_block := by
  induction names with
  | nil => intro acc; simp
  | cons n ns ih =>
    intro acc
    simp only [List.foldl_cons, List.flatMap_cons, ih (acc ++ variation_block n)]
    simp

/-- C5 (amended): the discovery stage
(`discover_local_names`) never raises and always returns a non-empty,
duplicate-free list of at most 10 names headed by the bare input name;
the full query-variation list subsequently built is non-empty and
duplicate-free (but its head can be an alias rather than the bare
name, and its length is not capped — see
`C5_head_not_bare_counterexample`). -/
theorem C5_variant_generation (city : List Char) (disc : Option (List (List Char))) :
    discover_local_names city disc ≠ [] ∧
    (discover_local_names city disc).head? = some city ∧
    (discover_local_names city disc).length ≤ 10 ∧
    (discover_local_names city disc).Nodup ∧
    city_variations city disc ≠ [] ∧
    (city_variations city disc).Nodup := by
  have hdisc : discover_local_names city disc ≠ [] ∧
      (discover_local_names city disc).head? = some city ∧
      (discover_local_names city disc).length ≤ 10 ∧
      (discover_local_names city disc).Nodup := by
    match disc with
    | none =>
      refine ⟨by simp [discover_local_names], by simp [discover_local_names], ?_, ?_⟩
      · simp [discover_local_names]
      · simp [discover_local_names]
    | some names =>
      obtain ⟨ext, he, hn⟩ := discFold_ext city names [city] (by simp)
      simp only [discover_local_names]
      rw [he]
      have hcons : ([city] ++ ext) = city :: ext := by simp
      rw [hcons] at hn ⊢
      refine ⟨by simp [List.take_succ_cons], by simp [List.take_succ_cons], ?_, ?_⟩
      · exact List.length_take_le 10 _
      · exact hn.sublist (List.take_sublist 10 _)
  refine ⟨hdisc.1, hdisc.2.1, hdisc.2.2.1, hdisc.2.2.2, ?_, ?_⟩
  · unfold city_variations
    apply dedupKF_ne
    split_ifs with hg
    · exact by simp [pinsert]
    · rw [blocksFold_eq]
      match hd : discover_local_names city disc with
      | [] => exact absurd hd hdisc.1
      | x :: xs =>
        simp [variation_block]
  · unfold city_variations
    apply dedupKF_nodup

theorem toLower_ne_underscore (c : Char) (h : c ≠ '_') : c.toLower ≠ '_' := by
  unfold Char.toLower
  dsimp only
  split_ifs with hr
  · obtain ⟨h1, h2⟩ := hr
    interval_cases hh : c.toNat <;> decide
  · exact h

theorem spanDigits_underscore (d r : List Char) (hd : ∀ c ∈ d, c.isDigit = true) :
    spanDigits (d ++ '_' :: r) = (d, '_' :: r) := by
  induction d with
  | nil =>
    simp only [List.nil_append, spanDigits]
    rw [if_neg (by decide)]
  | cons c cs ih =>
    have hc : c.isDigit = true := hd c (List.mem_cons_self c cs)
    have ihh := ih (fun x hx => hd x (List.mem_cons_of_mem c hx))
    simp only [List.cons_append, spanDigits]
    rw [if_pos hc]
    simp only [List.append_eq, ihh]

theorem isPrefixOf_geo_length {l : List Char}
    (h : litDotGeojson.isPrefixOf l = true) : 8 ≤ l.length := by
  rw [List.isPrefixOf_iff_prefix] at h
  have := h.length_le
  simpa using this

theorem findGeoSplit_descend (r : List Char) (t : Nat) (ht : 1 ≤ t)
    (hnl : ((r.take t).contains '\n') = false)
    (hpre : litDotGeojson.isPrefixOf (r.drop t) = true) :
    ∀ j : Nat, (∀ k, t < k → k ≤ t + j → litDotGeojson.isPrefixOf (r.drop k) = false) →
      findGeoSplit r (t + j) = some (r.take t) := by
  intro j
  induction j with
  | zero =>
    intro _
    obtain ⟨m, rfl⟩ : ∃ m, t = m + 1 := ⟨t - 1, by omega⟩
    rw [Nat.add_zero]
    show findGeoSplit r (m + 1) = some (r.take (m + 1))
    simp only [findGeoSplit]
    rw [if_pos]
    rw [hnl, hpre]
    rfl
  | succ j ih =>
    intro hk
    have hfail := hk (t + j + 1) (by omega) (by omega)
    rw [show t + (j + 1) = (t + j) + 1 by omega]
    show findGeoSplit r ((t + j) + 1) = some (r.take t)
    simp only [findGeoSplit]
    rw [if_neg (by rw [hfail]; simp)]
    exact ih (fun k h1 h2 => hk k h1 (by omega))

theorem primary_match_structured (d n : List Char) (hd : d ≠ [])
    (hdd : ∀ c ∈ d, c.isDigit = true) (hn : n ≠ [])
    (hnl : (n.contains '\n') = false) :
    primary_match (litPilot ++ (d ++ '_' :: (n ++ litDotGeojson))) = some (d, n) := by
  unfold primary_match
  rw [if_pos (List.isPrefixOf_iff_prefix.mpr (List.prefix_append _ _))]
  have hdrop : (litPilot ++ (d ++ '_' :: (n ++ litDotGeojson))).drop 5
      = d ++ '_' :: (n ++ litDotGeojson) := by
    have h5 : (5 : Nat) = litPilot.length := by decide
    rw [h5, List.drop_left]
  rw [hdrop, spanDigits_underscore d _ hdd]
  match d, hd with
  | dc :: ds, _ =>
    simp only
    have hlen : (n ++ litDotGeojson).length = n.length + 8 := by
      simp [litDotGeojson]
    have htake : (n ++ litDotGeojson).take n.length = n := List.take_left _ _
    have hdropn : (n ++ litDotGeojson).drop n.length = litDotGeojson := List.drop_left _ _
    have hfind : findGeoSplit (n ++ litDotGeojson) ((n ++ litDotGeojson).length)
        = some n := by
      rw [hlen]
      have := findGeoSplit_descend (n ++ litDotGeojson) n.length
        (by have := List.length_pos.mpr hn; omega)
        (by rw [htake]; exact hnl)
        (by rw [hdropn]; decide)
        8
        (by
          intro k hk1 hk2
          cases hb : litDotGeojson.isPrefixOf ((n ++ litDotGeojson).drop k) with
          | false => rfl
          | true =>
            have h8 := isPrefixOf_geo_length hb
            rw [List.length_drop, hlen] at h8
            omega)
      rw [htake] at this
      exact this
    rw [hfind]
    rfl

theorem filter_dropWhile_eq (p q : Char → Bool) :
    ∀ l : List Char, (∀ c ∈ l, q c = true → p c = false) →
      (l.dropWhile q).filter p = l.filter p := by
  intro l
  induction l with
  | nil => intro _; rfl
  | cons c t ih =>
    intro h
    by_cases hq : q c = true
    · have hp : p c = false := h c (List.mem_cons_self c t) hq
      have iht := ih (fun x hx => h x (List.mem_cons_of_mem c hx))
      simp [List.dropWhile_cons, hq, List.filter_cons, hp, iht]
    · simp [List.dropWhile_cons, hq]

theorem removeSpaces_pyStrip (s : List Char)
    (h : ∀ c ∈ s, isPySpace c = true → c = ' ') :
    removeSpaces (pyStrip s) = removeSpaces s := by
  have hps : ∀ (l : List Char), (∀ c ∈ l, isPySpace c = true → c = ' ') →
      ∀ c ∈ l, isPySpace c = true → (fun x => decide (x ≠ ' ')) c = false := by
    intro l hl c hc hq
    have := hl c hc hq
    subst this
    decide
  unfold pyStrip removeSpaces
  rw [List.filter_reverse]
  rw [filter_dropWhile_eq _ isPySpace _ (by
    intro c hc hq
    apply hps s h c _ hq
    have hmem := (List.dropWhile_suffix isPySpace).mem (List.mem_reverse.mp hc)
    exact hmem)]
  rw [List.filter_reverse, List.reverse_reverse]
  exact filter_dropWhile_eq _ isPySpace s (hps s h)

theorem filter_map_replace (n : List Char) :
    removeSpaces (pyReplaceUS n) = n.filter (fun c => ¬(c = '_' ∨ c = ' ')) := by
  unfold removeSpaces pyReplaceUS
  induction n with
  | nil => rfl
  | cons c t ih =>
    rw [List.map_cons, List.filter_cons, List.filter_cons]
    by_cases h_ : c = '_'
    · subst h_
      rw [if_pos rfl, if_neg (by decide), if_neg (by decide)]
      exact ih
    · rw [if_neg h_]
      by_cases hs : c = ' '
      · subst hs
        rw [if_neg (by decide), if_neg (by decide)]
        exact ih
      · rw [if_pos (by simp [hs]), if_pos (by simp [h_, hs]), ih]

theorem city_clean (n : List Char) (hok : ∀ c ∈ n, isPySpace c = true → c = ' ') :
    removeSpaces (pyStrip (pyReplaceUS n)) = n.filter (fun c => ¬(c = '_' ∨ c = ' ')) := by
  have hm : ∀ c ∈ pyReplaceUS n, isPySpace c = true → c = ' ' := by
    intro c hc hq
    unfold pyReplaceUS at hc
    obtain ⟨a, ha, rfl⟩ := List.mem_map.mp hc
    by_cases h_ : a = '_'
    · simp [h_]
    · rw [if_neg h_] at hq ⊢
      exact hok a ha hq
  rw [removeSpaces_pyStrip _ hm, filter_map_replace]

theorem removeAllGeo_mem (c : Char) :
    ∀ (k : Nat) (s : List Char), s.length ≤ k → c ∈ removeAllGeo s → c ∈ s := by
  intro k
  induction k with
  | zero =>
    intro s hs hc
    have hnil : s = [] := List.length_eq_zero.mp (by omega)
    subst hnil
    simp [removeAllGeo] at hc
  | succ k ih =>
    intro s hs hc
    match s with
    | [] => simp [removeAllGeo] at hc
    | a :: as =>
      unfold removeAllGeo at hc
      by_cases hp : litDotGeojson.isPrefixOf (a :: as) = true
      · rw [if_pos hp] at hc
        have hlen : ((a :: as).drop 8).length ≤ k := by
          simp only [List.length_drop, List.length_cons]
          simp only [List.length_cons] at hs
          omega
        exact List.mem_of_mem_drop (ih _ hlen hc)
      · rw [if_neg hp] at hc
        rcases List.mem_cons.mp hc with hc | hc
        · exact hc ▸ List.mem_cons_self a as
        · have hlen : as.length ≤ k := by
            simp only [List.length_cons] at hs
            omega
          exact List.mem_cons_of_mem a (ih as hlen hc)

theorem splitUS_no_sep (s : List Char) (h : '_' ∉ s) : splitUS s = [s] := by
  induction s with
  | nil => rfl
  | cons c t ih =>
    have hc : ¬ (c = '_') := fun he => h (he ▸ List.mem_cons_self c t)
    have ht := ih (fun hm => h (List.mem_cons_of_mem c hm))
    simp [splitUS, hc, ht]

/-- C10: a filename matching the primary pattern
pilot&lt;digits&gt;_&lt;name&gt;.geojson yields the lower-cased name with every
underscore and space removed, paired with the digits; a filename that
neither matches the primary pattern nor contains an underscore yields
("unknown", "unknown"). -/
theorem C10_extract_city_and_pilot (f d n : List Char)
    (hlow : pyLower f = litPilot ++ (d ++ '_' :: (n ++ litDotGeojson)))
    (hd : d ≠ []) (hdd : ∀ c ∈ d, c.isDigit = true) (hn : n ≠ [])
    (hok : ∀ c ∈ n, isPySpace c = true → c = ' ') :
    extract_city_and_pilot f = (n.filter (fun c => ¬(c = '_' ∨ c = ' ')), d) ∧
    ∀ f2 : List Char, primary_match (pyLower f2) = none → '_' ∉ f2 →
      extract_city_and_pilot f2 = (litUnknown, litUnknown) := by
  constructor
  · have hnl : (n.contains '\n') = false := by
      cases hb : n.contains '\n' with
      | false => rfl
      | true =>
        have hmem : '\n' ∈ n := List.elem_iff.mp hb
        have := hok _ hmem (by decide)
        exact absurd this (by decide)
    unfold extract_city_and_pilot
    rw [hlow, primary_match_structured d n hd hdd hn hnl]
    dsimp only
    rw [city_clean n hok]
  · intro f2 hpm hus
    have h1 : '_' ∉ pyLower f2 := by
      intro hm
      obtain ⟨a, ha, he⟩ := List.mem_map.mp hm
      by_cases h_ : a = '_'
      · exact hus (h_ ▸ ha)
      · exact toLower_ne_underscore a h_ he
    have h2 : '_' ∉ removeAllGeo (pyLower f2) :=
      fun hm => h1 (removeAllGeo_mem '_' (pyLower f2).length _ (le_refl _) hm)
    unfold extract_city_and_pilot
    rw [hpm, splitUS_no_sep _ h2]
    simp

/-- Witness for C10 at "pilot5_the_hague.geojson" (primary pattern,
multi-word city) and "badname.geojson" (no pattern, no underscore). -/
theorem C10_extract_city_and_pilot_witness :
    extract_city_and_pilot fPilotHague = (litTheHague, litFive) ∧
    extract_city_and_pilot fBadName = (litUnknown, litUnknown) := by
  have h := C10_extract_city_and_pilot fPilotHague dExample nExample (by decide)
    (by decide) (by decide) (by decide) (by decide)
  constructor
  · rw [h.1]
    decide
  · exact h.2 fBadName (by decide) (by decide)

/-- C5 counterexample: for the input "gothenburg" (name discovery
failing), the first query string generated is the alias "Göteborg",
not the bare input name. -/
theorem C5_head_not_bare_counterexample :
    (city_variations litGothenburgSub none).head? = some litGoteborgCap ∧
    litGoteborgCap ≠ litGothenburgSub := by
  decide

/-- Witness for C4 at a concrete tie: two equal-score eligible "city"
candidates; the loop selects the first. -/
theorem C4_first_max_selected_witness :
    eligibleCand candCityA = true ∧
    (∀ d ∈ [candCityA, candCityB], eligibleCand d = true →
      combined_score d ≤ combined_score candCityA) ∧
    ∃ pre post, ([candCityA, candCityB] : List Cand) = pre ++ candCityA :: post ∧
      ∀ d ∈ pre, eligibleCand d = true → combined_score d < combined_score candCityA :=
  (C4_first_max_selected [candCityA, candCityB]).2 candCityA (by
    norm_num +decide [select_boundary, selectStep, eligibleCand, combined_score, type_score,
      size_score, is_suitable_geometry, is_reasonable_size, aliasMatch, subStr,
      candCityA, candCityB, pyLower, litPolygon, litCity, litStad, litGoteborgSub,
      litStockholmSub, litMalmoSub])

theorem validate_file_system_length (cfg : Config) (e : Bool) (s : Nat)
    (n : List Char) :
    (GeoJSONValidator.validate_file_system cfg e s n).length
      = if e = false then 1 else 3 := by
  cases e <;> simp [GeoJSONValidator.validate_file_system]

theorem validate_json_structure_length_pos (j : JsonOutcome) :
    1 ≤ (GeoJSONValidator.validate_json_structure j).length := by
  match j with
  | JsonOutcome.decodeError => simp [GeoJSONValidator.validate_json_structure]
  | JsonOutcome.readError => simp [GeoJSONValidator.validate_json_structure]
  | JsonOutcome.ok tf ff =>
    rcases hm : ff.getD (JVal.arr []) with s | fs | _ <;>
      simp [GeoJSONValidator.validate_json_structure, hm]

theorem validate_json_structure_length_ok (tf ff : Option JVal) :
    5 ≤ (GeoJSONValidator.validate_json_structure (JsonOutcome.ok tf ff)).length := by
  rcases hm : ff.getD (JVal.arr []) with s | fs | _ <;>
    simp [GeoJSONValidator.validate_json_structure, hm]

theorem validate_geodataframe_length (cfg : Config) (g : GdfModel) :
    (GeoJSONValidator.validate_geodataframe cfg g).length = 6 := by
  simp [GeoJSONValidator.validate_geodataframe]

theorem validate_file_results_length_pos (cfg : Config) (fi : FileInput) :
    1 ≤ (GeoJSONValidator.validate_file_results cfg fi).length := by
  unfold GeoJSONValidator.validate_file_results
  match fi.statSize with
  | none => simp
  | some sz =>
    simp only [List.length_append]
    have h1 := validate_json_structure_length_pos fi.json
    omega

/-- C7 (amended): a file that cannot even be accessed (`stat` raises)
yields exactly one CheckResult; any readable well-formed
FeatureCollection yields at least 5; a readable file whose content
fails JSON parsing and GeoPandas loading yields exactly 5 (three file
system results, the json_validity failure and the geopandas_loading
failure), not 1. -/
theorem C7_check_counts (cfg : Config) (fi : FileInput) :
    (fi.statSize = none → (GeoJSONValidator.validate_file cfg fi).total_tests = 1) ∧
    (∀ sz tf ff g, fi.statSize = some sz → fi.exists_b = true →
      fi.json = JsonOutcome.ok tf ff → fi.gdf = some g →
      5 ≤ (GeoJSONValidator.validate_file cfg fi).total_tests) ∧
    (∀ sz, fi.statSize = some sz → fi.exists_b = true →
      fi.json = JsonOutcome.decodeError → fi.gdf = none →
      (GeoJSONValidator.validate_file cfg fi).total_tests = 5) := by
  refine ⟨?_, ?_, ?_⟩
  · intro hs
    simp [GeoJSONValidator.validate_file, GeoJSONValidator.validate_file_results, hs]
  · intro sz tf ff g hs he hj hg
    show 5 ≤ (GeoJSONValidator.validate_file_results cfg fi).length
    unfold GeoJSONValidator.validate_file_results
    rw [hs, hj, hg]
    dsimp only
    simp only [List.length_append, List.length_singleton]
    have h1 := validate_json_structure_length_ok tf ff
    have h2 := validate_geodataframe_length cfg g
    have h3 : (GeoJSONValidator.validate_file_system cfg fi.exists_b sz fi.name).length
        = 3 := by
      rw [validate_file_system_length, he]
      simp
    omega
  · intro sz hs he hj hg
    show (GeoJSONValidator.validate_file_results cfg fi).length = 5
    unfold GeoJSONValidator.validate_file_results
    rw [hs, hj, hg]
    dsimp only
    simp only [List.length_append, List.length_singleton]
    have h3 : (GeoJSONValidator.validate_file_system cfg fi.exists_b sz fi.name).length
        = 3 := by
      rw [validate_file_system_length, he]
      simp
    have h4 : (GeoJSONValidator.validate_json_structure JsonOutcome.decodeError).length
        = 1 := by
      simp [GeoJSONValidator.validate_json_structure]
    omega

/-- C7 counterexample: a readable file whose content fails to parse
(invalid JSON, GeoPandas load failure) yields 5 CheckResults, not
exactly 1. -/
theorem C7_parse_failure_counterexample :
    (GeoJSONValidator.validate_file default_config badJsonInput).total_tests = 5 ∧
    (GeoJSONValidator.validate_file default_config badJsonInput).total_tests ≠ 1 := by
  decide

/-- Witness for C7 at a concrete inaccessible file and a concrete
well-formed file. -/
theorem C7_check_counts_witness :
    (GeoJSONValidator.validate_file default_config noAccessInput).total_tests = 1 ∧
    5 ≤ (GeoJSONValidator.validate_file default_config goodInput).total_tests :=
  ⟨(C7_check_counts default_config noAccessInput).1 rfl,
    (C7_check_counts default_config goodInput).2.1 100
      (some (JVal.str litFeatureCollection)) (some (JVal.arr [⟨true, true, true⟩]))
      goodGdf rfl rfl rfl rfl⟩

/-- C8: a batch run produces exactly one FileReport per input file,
every produced report has total_tests ≥ 1, and a file whose
validation raises is converted into the single-failing-check error
report instead of aborting the batch. -/
theorem C8_batch_reports (cfg : Config) (items : List BatchItem) :
    (GeoJSONValidator.validate_all_files cfg items).length = items.length ∧
    (∀ rep ∈ GeoJSONValidator.validate_all_files cfg items, 1 ≤ rep.total_tests) ∧
    (∀ name, BatchItem.raisesErr name ∈ items →
      error_report name ∈ GeoJSONValidator.validate_all_files cfg items ∧
      (error_report name).total_tests = 1 ∧
      (error_report name).failed_tests = 1 ∧
      (error_report name).validation_results.length = 1) := by
  refine ⟨by simp [GeoJSONValidator.validate_all_files], ?_, ?_⟩
  · intro rep hrep
    obtain ⟨it, hit, heq⟩ := List.mem_map.mp hrep
    subst heq
    match it with
    | BatchItem.ok fi => exact validate_file_results_length_pos cfg fi
    | BatchItem.raisesErr n => simp [error_report]
  · intro name hname
    refine ⟨?_, rfl, rfl, rfl⟩
    exact List.mem_map.mpr ⟨BatchItem.raisesErr name, hname, rfl⟩

/-- Witness for C8 at a concrete two-file batch containing one raising
file. -/
theorem C8_batch_reports_witness :
    (GeoJSONValidator.validate_all_files default_config exBatch).length
        = exBatch.length ∧
    (error_report fBadName ∈
        GeoJSONValidator.validate_all_files default_config exBatch ∧
      (error_report fBadName).total_tests = 1 ∧
      (error_report fBadName).failed_tests = 1 ∧
      (error_report fBadName).validation_results.length = 1) :=
  ⟨(C8_batch_reports default_config exBatch).1,
    (C8_batch_reports default_config exBatch).2.2 fBadName
      (List.mem_cons_of_mem _ (List.mem_cons_self _ _))⟩

/-- C9: every FileReport the engine produces has overall_status "PASS"
iff every contained CheckResult passed (equivalently failed_tests is
0), and success_rate equals passed/total, 0 when total is 0. -/
theorem C9_report_consistency (cfg : Config) (items : List BatchItem)
    (rep : FileValidationReport)
    (h : rep ∈ GeoJSONValidator.validate_all_files cfg items) :
    (overall_status rep = litPASS ↔ rep.failed_tests = 0) ∧
    (overall_status rep = litPASS ↔ ∀ r ∈ rep.validation_results, r.passed = true) ∧
    success_rate rep =
      (if 0 < rep.total_tests then (rep.passed_tests : ℚ) / (rep.total_tests : ℚ)
       else 0) := by
  have hstat : ∀ r : FileValidationReport, (overall_status r = litPASS ↔ r.failed_tests = 0) := by
    intro r
    unfold overall_status
    split_ifs with hf
    · simp [hf]
    · simp only [hf, iff_false]
      intro he
      exact absurd he (by decide)
  refine ⟨hstat rep, ?_, by rfl⟩
  rw [hstat rep]
  obtain ⟨it, hit, heq⟩ := List.mem_map.mp h
  subst heq
  match it with
  | BatchItem.ok fi =>
    have hle : ((GeoJSONValidator.validate_file_results cfg fi).filter
        (fun r => r.passed)).length
        ≤ (GeoJSONValidator.validate_file_results cfg fi).length :=
      List.length_filter_le _ _
    show (GeoJSONValidator.validate_file_results cfg fi).length -
        ((GeoJSONValidator.validate_file_results cfg fi).filter
          (fun r => r.passed)).length = 0 ↔
      ∀ r ∈ GeoJSONValidator.validate_file_results cfg fi, r.passed = true
    constructor
    · intro h0
      have hlen : ((GeoJSONValidator.validate_file_results cfg fi).filter
          (fun r => r.passed)).length
          = (GeoJSONValidator.validate_file_results cfg fi).length := by
        omega
      exact fun r hr => List.filter_length_eq_length.mp hlen r hr
    · intro hall
      have hlen := (@List.filter_length_eq_length ValidationResult
        (fun r => r.passed) (GeoJSONValidator.validate_file_results cfg fi)).mpr hall
      omega
  | BatchItem.raisesErr n =>
    constructor
    · intro h1
      have h2 : (1 : Nat) = 0 := h1
      exact absurd h2 (by decide)
    · intro hall
      have h2 := hall ⟨litCriticalError, false, [], none⟩ (by simp [error_report])
      exact absurd h2 (by decide)

/-- Witness for C9 at a concrete batch and report. -/
theorem C9_report_consistency_witness :
    (overall_status (error_report fBadName) = litPASS ↔
      (error_report fBadName).failed_tests = 0) ∧
    (overall_status (error_report fBadName) = litPASS ↔
      ∀ r ∈ (error_report fBadName).validation_results, r.passed = true) ∧
    success_rate (error_report fBadName) =
      (if 0 < (error_report fBadName).total_tests then
        ((error_report fBadName).passed_tests : ℚ) /
          ((error_report fBadName).total_tests : ℚ)
       else 0) :=
  C9_report_consistency default_config exBatch (error_report fBadName)
    (List.mem_map.mpr ⟨BatchItem.raisesErr fBadName,
      List.mem_cons_of_mem _ (List.mem_cons_self _ _), rfl⟩)

end ReallocateMap
